import Mathlib

/-!
# Verification of the Ryu-vRouter FPM protocol decoders

Shallow embedding of the decoders in `ryu_vrouter/protocol/fpm/`
(`fpm_header.py`, `netlink.py`, `rtnetlink.py`).

Byte buffers are `List Nat` with each entry read modulo 256 (`byteAt`), and
every decoder returns `Except PyError (Option record × Option NextProto ×
List Nat)`, mirroring the Python triple `(record-or-None, next-class-or-None,
remaining-buffer)`; a raised Python exception (an uncaught `struct.error`
from `struct.unpack_from`, or a `ValueError` from an address conversion) is
modelled as `Except.error`.

The Python module as written contains several name-resolution and syntax
slips that would keep it from importing at all (`else if` instead of `elif`
in `RtAttrDst`/`RtAttrGateway`, forward references to the attribute classes
in `RtAttribute.attr_cls_map`, the bare names `_MIN_LEN` in
`RtAttribute.parser` and `_PACK_STR` in `RtAttrOif`/`RtAttrPriority` in place
of the class attributes, and `super(Netlink, self)` in `FpmHeader.__init__`).
These are embedded by their evident intent (the class attribute or class at
hand).  All genuine algorithmic behaviour of the code is kept exactly:
the loop in `RtNetlink.parser` re-slices `buf = buf[rt_attr.length:]` after
`RtAttribute.parser` has already advanced past header and payload; unknown
attribute types yield `None` (no record) which breaks the loop; payload
slices clamp to the bytes available with no declared-length bounds check;
`struct.unpack_from` raises when the buffer is shorter than the format size.
`struct.unpack_from('!I', data)` returns a 1-tuple in Python; its single
field is stored as the bare integer here.
-/

namespace RyuVRouter

/-- A Python exception escaping a decoder: `struct.error` from
`struct.unpack_from`, or an error raised by an address conversion. -/
inductive PyError where
  | structError
  | valueError
deriving DecidableEq, Repr

/-- The "next protocol class" returned by a decoder (`Netlink`, `RtNetlink`,
or `None` modelled by `Option NextProto`). -/
inductive NextProto where
  | netlink
  | rtnetlink
deriving DecidableEq, Repr

/-- Byte `i` of a buffer; entries are reduced modulo 256, out-of-range
reads (which the decoders never perform on the paths we verify) give 0. -/
def byteAt (buf : List Nat) (i : Nat) : Nat :=
  buf.getD i 0 % 256

/-- Big-endian 16-bit read, as `struct.unpack` with format `!H`. -/
def be16 (a b : Nat) : Nat := a * 256 + b

/-- Big-endian 32-bit read, as `struct.unpack` with formats `!I` / `!L`. -/
def be32 (a b c d : Nat) : Nat := ((a * 256 + b) * 256 + c) * 256 + d

/-- Dotted-decimal text of four byte values. -/
def dottedQuad (a b c d : Nat) : String :=
  toString a ++ "." ++ toString b ++ "." ++ toString c ++ "." ++ toString d

/-- Modelled from the library `ryu.lib.addrconv.ipv4.bin_to_text` (external
to this repository): dotted-decimal text of a 4-byte string; any other
length raises. -/
def ipv4_bin_to_text (data : List Nat) : Except PyError String :=
  match data with
  | [a, b, c, d] => .ok (dottedQuad (a % 256) (b % 256) (c % 256) (d % 256))
  | _ => .error .valueError

/-- Lowercase hexadecimal digit. -/
def hexDigitChar (n : Nat) : Char :=
  if n < 10 then Char.ofNat (48 + n) else Char.ofNat (87 + n)

/-- Lowercase hexadecimal text of a 16-bit group, without leading zeros. -/
def hexWord (n : Nat) : String :=
  if n < 16 then String.mk [hexDigitChar n]
  else if n < 256 then String.mk [hexDigitChar (n / 16), hexDigitChar (n % 16)]
  else if n < 4096 then
    String.mk [hexDigitChar (n / 256), hexDigitChar (n / 16 % 16), hexDigitChar (n % 16)]
  else
    String.mk [hexDigitChar (n / 4096 % 16), hexDigitChar (n / 256 % 16),
               hexDigitChar (n / 16 % 16), hexDigitChar (n % 16)]

/-- The 16 bytes of an IPv6 address as eight big-endian 16-bit groups. -/
def hextets (data : List Nat) : List Nat :=
  match data with
  | a :: b :: rest => be16 (a % 256) (b % 256) :: hextets rest
  | _ => []

/-- Modelled from the library `ryu.lib.addrconv.ipv6.bin_to_text` (external
to this repository): textual form of a 16-byte IPv6 address; any other
length raises.  The zero-run compression of the external library is not
reproduced; the claims only relate the decoded address to this conversion
of the payload bytes. -/
def ipv6_bin_to_text (data : List Nat) : Except PyError String :=
  if data.length = 16 then
    .ok (String.intercalate ":" ((hextets data).map hexWord))
  else .error .valueError

/-- Attribute types, from `rtnetlink.py`. -/
def RTA_DST : Nat := 1
/-- Attribute type of the output-interface attribute. -/
def RTA_OIF : Nat := 4
/-- Attribute type of the gateway attribute. -/
def RTA_GATEWAY : Nat := 5
/-- Attribute type of the priority attribute. -/
def RTA_PRIORITY : Nat := 6

/-- The variant payload carried by each `RtAttribute` subclass: the extra
field set by `RtAttrDst`, `RtAttrOif`, `RtAttrGateway` or `RtAttrPriority`
(`pirority` is the source's spelling). -/
inductive RtAttrPayload where
  | dst (dst_address : Option String)
  | oif (oif : Option Nat)
  | gateway (gateway : Option String)
  | pirority (pirority : Option Nat)
deriving DecidableEq, Repr

/-- A decoded route attribute: the base-class fields `length` (declared
payload length from the wire) and `attr_type`, plus the subclass field. -/
structure RtAttribute where
  length : Nat
  attr_type : Nat
  payload : RtAttrPayload
deriving DecidableEq, Repr

/-- `RtAttrDst.__init__`: length 4 selects IPv4 text, 16 IPv6 text, any
other length leaves `dst_address = None`.  The address conversion raises on
a payload shorter than the selected family's size. -/
def RtAttrDst (length attr_type : Nat) (attr_data : List Nat) :
    Except PyError RtAttribute :=
  if length = 4 then
    match ipv4_bin_to_text attr_data with
    | .error e => .error e
    | .ok s => .ok ⟨length, attr_type, .dst (some s)⟩
  else if length = 16 then
    match ipv6_bin_to_text attr_data with
    | .error e => .error e
    | .ok s => .ok ⟨length, attr_type, .dst (some s)⟩
  else .ok ⟨length, attr_type, .dst none⟩

/-- `RtAttrOif.__init__`: `oif = None` unless length is 4, else
`struct.unpack_from('!I', attr_data)`, which raises `struct.error` when
fewer than 4 bytes of payload are actually present. -/
def RtAttrOif (length attr_type : Nat) (attr_data : List Nat) :
    Except PyError RtAttribute :=
  if length ≠ 4 then .ok ⟨length, attr_type, .oif none⟩
  else if attr_data.length < 4 then .error .structError
  else .ok ⟨length, attr_type,
    .oif (some (be32 (byteAt attr_data 0) (byteAt attr_data 1)
                     (byteAt attr_data 2) (byteAt attr_data 3)))⟩

/-- `RtAttrGateway.__init__`: same rule as `RtAttrDst`, field `gateway`. -/
def RtAttrGateway (length attr_type : Nat) (attr_data : List Nat) :
    Except PyError RtAttribute :=
  if length = 4 then
    match ipv4_bin_to_text attr_data with
    | .error e => .error e
    | .ok s => .ok ⟨length, attr_type, .gateway (some s)⟩
  else if length = 16 then
    match ipv6_bin_to_text attr_data with
    | .error e => .error e
    | .ok s => .ok ⟨length, attr_type, .gateway (some s)⟩
  else .ok ⟨length, attr_type, .gateway none⟩

/-- `RtAttrPriority.__init__`: same rule as `RtAttrOif`, field `pirority`
(source spelling). -/
def RtAttrPriority (length attr_type : Nat) (attr_data : List Nat) :
    Except PyError RtAttribute :=
  if length ≠ 4 then .ok ⟨length, attr_type, .pirority none⟩
  else if attr_data.length < 4 then .error .structError
  else .ok ⟨length, attr_type,
    .pirority (some (be32 (byteAt attr_data 0) (byteAt attr_data 1)
                          (byteAt attr_data 2) (byteAt attr_data 3)))⟩

/-- `RtAttribute.attr_cls_map`: the static wire-type → attribute-class
dispatch table; `RtAttribute.get_attr_cls` returns `None` for any type not
in the table. -/
def attr_cls_map (t : Nat) :
    Option (Nat → Nat → List Nat → Except PyError RtAttribute) :=
  if t = RTA_DST then some RtAttrDst
  else if t = RTA_OIF then some RtAttrOif
  else if t = RTA_GATEWAY then some RtAttrGateway
  else if t = RTA_PRIORITY then some RtAttrPriority
  else none

/-- `RtAttribute.parser`: fewer than 4 bytes returns `(None, None, buf)`;
otherwise it reads `length` and `attr_type` (`!HH`), slices
`attr_data = buf[4 : 4+length]` (Python slicing clamps to the bytes
available), dispatches through `attr_cls_map` (no entry leaves the record
`None`), and returns the record with `buf[4+length:]`. -/
def RtAttribute.parser (buf : List Nat) :
    Except PyError (Option RtAttribute × Option NextProto × List Nat) :=
  if buf.length < 4 then .ok (none, none, buf)
  else
    let length := be16 (byteAt buf 0) (byteAt buf 1)
    let attr_type := be16 (byteAt buf 2) (byteAt buf 3)
    let attr_data := (buf.drop 4).take length
    match attr_cls_map attr_type with
    | none => .ok (none, none, buf.drop (4 + length))
    | some attr_cls =>
      match attr_cls length attr_type attr_data with
      | .error e => .error e
      | .ok attr => .ok (some attr, none, buf.drop (4 + length))

/-- One step of fuel for the attribute loop of `RtNetlink.parser`:

    while buf:
        rt_attr, ncls, buf = RtAttribute.parser(buf)
        if not rt_attr: break
        rt_atts.append(rt_attr)
        buf = buf[rt_attr.length:]

The loop body both receives the buffer already advanced past
`4 + length` by `RtAttribute.parser` and then re-slices it by
`rt_attr.length` — exactly as the source does.  Each continuing iteration
consumes at least 4 bytes, so fuel `buf.length + 1` can never run out
(`rtAttrLoopF_fuel_irrel` below). -/
def rtAttrLoopF : Nat → List Nat → Except PyError (List RtAttribute × List Nat)
  | 0, buf => .ok ([], buf)
  | fuel + 1, buf =>
    if buf = [] then .ok ([], buf)
    else
      match RtAttribute.parser buf with
      | .error e => .error e
      | .ok (none, _, b2) => .ok ([], b2)
      | .ok (some rt_attr, _, b2) =>
        match rtAttrLoopF fuel (b2.drop rt_attr.length) with
        | .error e => .error e
        | .ok (rest, bfin) => .ok (rt_attr :: rest, bfin)

/-- The attribute loop of `RtNetlink.parser`, run with sufficient fuel. -/
def rtAttrLoop (buf : List Nat) : Except PyError (List RtAttribute × List Nat) :=
  rtAttrLoopF (buf.length + 1) buf

/-- The RTNETLINK route message record (`RtNetlink.__init__` fields); the
`!BBBBBBBBL` header is eight single bytes followed by a 32-bit `flags`. -/
structure RtNetlink where
  address_family : Nat
  dst_len : Nat
  src_len : Nat
  tos : Nat
  table : Nat
  protocol : Nat
  scope : Nat
  msg_type : Nat
  flags : Nat
  rt_attrs : List RtAttribute
deriving DecidableEq, Repr

/-- `RtNetlink.parser`: `struct.unpack_from('!BBBBBBBBL', buf)` (raises on
fewer than 12 bytes), then the attribute loop on `buf[12:]`, then the
record, `None` next stage, and the leftover buffer. -/
def RtNetlink.parser (buf : List Nat) :
    Except PyError (Option RtNetlink × Option NextProto × List Nat) :=
  if buf.length < 12 then .error .structError
  else
    match rtAttrLoop (buf.drop 12) with
    | .error e => .error e
    | .ok (rt_atts, rest) =>
      .ok (some ⟨byteAt buf 0, byteAt buf 1, byteAt buf 2, byteAt buf 3,
                 byteAt buf 4, byteAt buf 5, byteAt buf 6, byteAt buf 7,
                 be32 (byteAt buf 8) (byteAt buf 9) (byteAt buf 10) (byteAt buf 11),
                 rt_atts⟩,
            none, rest)

/-- The Netlink header record (`Netlink.__init__` fields). -/
structure Netlink where
  length : Nat
  msg_type : Nat
  flags : Nat
  sequence : Nat
  process_port_id : Nat
deriving DecidableEq, Repr

/-- `Netlink.parser`: `struct.unpack_from('!IHHII', buf)` — a 16-byte
format (raises on fewer than 16 bytes); no validation of any field; returns
the record, the `RtNetlink` class, and `buf[16:]`. -/
def Netlink.parser (buf : List Nat) :
    Except PyError (Option Netlink × Option NextProto × List Nat) :=
  if buf.length < 16 then .error .structError
  else
    .ok (some ⟨be32 (byteAt buf 0) (byteAt buf 1) (byteAt buf 2) (byteAt buf 3),
               be16 (byteAt buf 4) (byteAt buf 5),
               be16 (byteAt buf 6) (byteAt buf 7),
               be32 (byteAt buf 8) (byteAt buf 9) (byteAt buf 10) (byteAt buf 11),
               be32 (byteAt buf 12) (byteAt buf 13) (byteAt buf 14) (byteAt buf 15)⟩,
          some .rtnetlink, buf.drop 16)

/-- The FPM header record (`FpmHeader.__init__` fields). -/
structure FpmHeader where
  version : Nat
  msg_type : Nat
  length : Nat
deriving DecidableEq, Repr

/-- `FpmHeader.parser`: `struct.unpack_from('!HHI', buf)` — an 8-byte
format (raises on fewer than 8 bytes); `version ≠ 1` or `msg_type ≠ 1`
returns `(None, None, buf)` with the buffer untouched; otherwise the
record, the `Netlink` class, and `buf[8:]`. -/
def FpmHeader.parser (buf : List Nat) :
    Except PyError (Option FpmHeader × Option NextProto × List Nat) :=
  if buf.length < 8 then .error .structError
  else
    let version := be16 (byteAt buf 0) (byteAt buf 1)
    let msg_type := be16 (byteAt buf 2) (byteAt buf 3)
    let length := be32 (byteAt buf 4) (byteAt buf 5) (byteAt buf 6) (byteAt buf 7)
    if version ≠ 1 then .ok (none, none, buf)
    else if msg_type ≠ 1 then .ok (none, none, buf)
    else .ok (some ⟨version, msg_type, length⟩, some .netlink, buf.drop 8)

/-! ## Shared lemmas about the attribute layer -/

/-- A buffer shorter than the 4-byte TLV header makes `RtAttribute.parser`
return no record and the unchanged buffer. -/
theorem parser_short (buf : List Nat) (h : buf.length < 4) :
    RtAttribute.parser buf = .ok (none, none, buf) := by
  unfold RtAttribute.parser
  rw [if_pos h]

/-- Whenever `RtAttribute.parser` returns at all on a buffer with at least a
TLV header, the buffer it returns is the input past the 4-byte header plus
the declared payload length. -/
theorem parser_ok_slice (buf : List Nat) (r : Option RtAttribute)
    (n : Option NextProto) (b2 : List Nat) (hlen : 4 ≤ buf.length)
    (hp : RtAttribute.parser buf = .ok (r, n, b2)) :
    b2 = buf.drop (4 + be16 (byteAt buf 0) (byteAt buf 1)) := by
  unfold RtAttribute.parser at hp
  rw [if_neg (by omega)] at hp
  dsimp only at hp
  split at hp
  · rw [Except.ok.injEq, Prod.mk.injEq, Prod.mk.injEq] at hp
    exact hp.2.2.symm
  · split at hp
    · exact absurd hp (by simp)
    · rw [Except.ok.injEq, Prod.mk.injEq, Prod.mk.injEq] at hp
      exact hp.2.2.symm

/-- A successful parse that produces a record consumed at least the 4-byte
TLV header: the returned buffer is at least 4 bytes shorter. -/
theorem parser_ok_some_shrink (buf : List Nat) (a : RtAttribute)
    (n : Option NextProto) (b2 : List Nat)
    (hp : RtAttribute.parser buf = .ok (some a, n, b2)) :
    b2.length + 4 ≤ buf.length := by
  by_cases hlen : 4 ≤ buf.length
  · have hs := parser_ok_slice buf (some a) n b2 hlen hp
    have : b2.length = buf.length - (4 + be16 (byteAt buf 0) (byteAt buf 1)) := by
      rw [hs, List.length_drop]
    omega
  · rw [parser_short buf (by omega)] at hp
    exact absurd hp (by simp)

/-- The attribute loop collects at most one attribute per 4 bytes of input:
each iteration that keeps going consumes at least the TLV header. -/
theorem rtAttrLoopF_bound (fuel : Nat) :
    ∀ (buf : List Nat) (attrs : List RtAttribute) (rest : List Nat),
      rtAttrLoopF fuel buf = .ok (attrs, rest) → 4 * attrs.length ≤ buf.length := by
  induction fuel with
  | zero =>
    intro buf attrs rest h
    unfold rtAttrLoopF at h
    obtain ⟨h1, h2⟩ := Prod.mk.injEq _ _ _ _ ▸ (Except.ok.injEq _ _ ▸ h)
    simp [← h1]
  | succ fuel ih =>
    intro buf attrs rest h
    unfold rtAttrLoopF at h
    split at h
    · obtain ⟨h1, h2⟩ := Prod.mk.injEq _ _ _ _ ▸ (Except.ok.injEq _ _ ▸ h)
      simp [← h1]
    · split at h
      · exact absurd h (by simp)
      · obtain ⟨h1, h2⟩ := Prod.mk.injEq _ _ _ _ ▸ (Except.ok.injEq _ _ ▸ h)
        simp [← h1]
      · rename_i rt_attr n b2 hp
        split at h
        · exact absurd h (by simp)
        · rename_i rest' bfin hrec
          obtain ⟨h1, h2⟩ := Prod.mk.injEq _ _ _ _ ▸ (Except.ok.injEq _ _ ▸ h)
          have hb := ih (b2.drop rt_attr.length) rest' bfin hrec
          have hshrink := parser_ok_some_shrink buf rt_attr n b2 hp
          have hdl : (b2.drop rt_attr.length).length = b2.length - rt_attr.length :=
            List.length_drop _ _
          rw [← h1]
          simp only [List.length_cons]
          omega

/-- Any two sufficient fuels give the attribute loop the same result, so
`rtAttrLoop`'s fuel of `buf.length + 1` is an artifact-free rendering of the
source's `while` loop. -/
theorem rtAttrLoopF_fuel_irrel (f : Nat) :
    ∀ (g : Nat) (buf : List Nat), buf.length < f → buf.length < g →
      rtAttrLoopF f buf = rtAttrLoopF g buf := by
  induction f with
  | zero => intro g buf hf hg; omega
  | succ f ih =>
    intro g buf hf hg
    cases g with
    | zero => omega
    | succ g =>
      unfold rtAttrLoopF
      by_cases hb : buf = []
      · rw [if_pos hb, if_pos hb]
      · rw [if_neg hb, if_neg hb]
        cases hp : RtAttribute.parser buf with
        | error e => rfl
        | ok t =>
          obtain ⟨r, n, b2⟩ := t
          cases r with
          | none => rfl
          | some a =>
            have hs := parser_ok_some_shrink buf a n b2 hp
            have hdl : (b2.drop a.length).length = b2.length - a.length :=
              List.length_drop _ _
            show (match rtAttrLoopF f (b2.drop a.length) with
                  | Except.error e => (Except.error e : Except PyError (List RtAttribute × List Nat))
                  | Except.ok (rest, bfin) => Except.ok (a :: rest, bfin)) =
                 (match rtAttrLoopF g (b2.drop a.length) with
                  | Except.error e => Except.error e
                  | Except.ok (rest, bfin) => Except.ok (a :: rest, bfin))
            rw [ih g (b2.drop a.length) (by omega) (by omega)]

/-- A nonempty attribute region shorter than a TLV header makes the loop
break at once, keeping the (empty) list collected so far and the buffer. -/
theorem rtAttrLoop_short (buf : List Nat) (h : buf.length < 4) :
    rtAttrLoop buf = .ok ([], buf) := by
  unfold rtAttrLoop rtAttrLoopF
  by_cases hb : buf = []
  · rw [if_pos hb]
  · rw [if_neg hb, parser_short buf h]

/-! ## Claims -/

/-- C1: the claim states that for an RTNETLINK payload holding an OIF
attribute with value 3 followed back-to-back by a PRIORITY attribute with
value 100, `RtNetlink.parser` yields exactly two attributes with `oif = 3`
and priority `100`, the loop advancing the cursor by the 4-byte TLV header
plus the declared payload length exactly once per attribute.  This theorem
evaluates the code at that very input and shows the opposite: because the
loop re-slices `buf[rt_attr.length:]` after `RtAttribute.parser` already
advanced past header and payload, the second attribute's TLV header is
skipped, its payload bytes are misread as a fresh TLV header of type 100
(not in the dispatch table), and the parse returns exactly ONE attribute —
the priority attribute is lost. -/
theorem c1_double_advance_drops_second_attribute :
    RtNetlink.parser
      [2, 24, 0, 0, 254, 3, 0, 1, 0, 0, 0, 0,
       0, 4, 0, 4, 0, 0, 0, 3,
       0, 4, 0, 6, 0, 0, 0, 100] =
      .ok (some ⟨2, 24, 0, 0, 254, 3, 0, 1, 0, [⟨4, 4, .oif (some 3)⟩]⟩, none, []) := rfl

/-- C2, counterexample: the claim states that an attribute whose type is not
in the dispatch table decodes to an Unknown variant retaining the raw
payload, and that decoding of the remaining attributes continues.  On a
message carrying an unknown attribute (type 99) followed by a PRIORITY
attribute, the code instead produces NO record for the unknown attribute
and the loop breaks: the attribute list is empty and the following
PRIORITY attribute is returned undecoded in the leftover buffer. -/
theorem c2_counterexample_unknown_aborts :
    RtNetlink.parser
      [2, 24, 0, 0, 254, 3, 0, 1, 0, 0, 0, 0,
       0, 4, 0, 99, 1, 2, 3, 4,
       0, 4, 0, 6, 0, 0, 0, 100] =
      .ok (some ⟨2, 24, 0, 0, 254, 3, 0, 1, 0, []⟩, none, [0, 4, 0, 6, 0, 0, 0, 100]) := rfl

/-- C2, amended: an attribute whose `attr_type` is not in `attr_cls_map`
yields no record (`None`, no Unknown variant exists in the code), and the
attribute loop thereupon breaks: the attributes decoded so far are kept and
the rest of the attribute sequence is left undecoded, the buffer past the
unknown attribute being returned raw. -/
theorem c2_unknown_type_yields_none_and_breaks (buf : List Nat)
    (h4 : 4 ≤ buf.length)
    (hu : attr_cls_map (be16 (byteAt buf 2) (byteAt buf 3)) = none) :
    RtAttribute.parser buf =
      .ok (none, none, buf.drop (4 + be16 (byteAt buf 0) (byteAt buf 1))) ∧
    rtAttrLoop buf = .ok ([], buf.drop (4 + be16 (byteAt buf 0) (byteAt buf 1))) := by
  have hp : RtAttribute.parser buf =
      .ok (none, none, buf.drop (4 + be16 (byteAt buf 0) (byteAt buf 1))) := by
    unfold RtAttribute.parser
    rw [if_neg (by omega)]
    dsimp only
    rw [hu]
  refine ⟨hp, ?_⟩
  unfold rtAttrLoop rtAttrLoopF
  rw [if_neg (by intro hb; rw [hb] at h4; simp at h4), hp]

/-- C2, witness: the amended behaviour at a concrete unknown attribute of
type 99 with a trailing byte. -/
theorem c2_unknown_type_yields_none_and_breaks_witness :
    RtAttribute.parser [0, 4, 0, 99, 1, 2, 3, 4, 9] = .ok (none, none, [9]) ∧
    rtAttrLoop [0, 4, 0, 99, 1, 2, 3, 4, 9] = .ok ([], [9]) :=
  c2_unknown_type_yields_none_and_breaks [0, 4, 0, 99, 1, 2, 3, 4, 9] (by decide) rfl

/-- C3: for every buffer of at least 8 bytes, `FpmHeader.parser` succeeds
exactly when the first two big-endian 16-bit fields are `version = 1` and
`msg_type = 1`, returning the constructed header record, the `Netlink`
next-stage directive and the buffer past the 8 consumed bytes; for any
other version/msg_type pair it returns no record, no next stage, and the
original buffer unchanged. -/
theorem c3_fpm_gate (buf : List Nat) (h : 8 ≤ buf.length) :
    (be16 (byteAt buf 0) (byteAt buf 1) = 1 ∧ be16 (byteAt buf 2) (byteAt buf 3) = 1 →
      FpmHeader.parser buf =
        .ok (some ⟨1, 1, be32 (byteAt buf 4) (byteAt buf 5) (byteAt buf 6) (byteAt buf 7)⟩,
             some .netlink, buf.drop 8)) ∧
    (¬(be16 (byteAt buf 0) (byteAt buf 1) = 1 ∧ be16 (byteAt buf 2) (byteAt buf 3) = 1) →
      FpmHeader.parser buf = .ok (none, none, buf)) := by
  constructor
  · rintro ⟨hv, ht⟩
    unfold FpmHeader.parser
    rw [if_neg (by omega)]
    dsimp only
    rw [hv, ht]
    simp
  · intro hne
    unfold FpmHeader.parser
    rw [if_neg (by omega)]
    dsimp only
    by_cases hv : be16 (byteAt buf 0) (byteAt buf 1) = 1
    · have ht : be16 (byteAt buf 2) (byteAt buf 3) ≠ 1 := fun ht => hne ⟨hv, ht⟩
      simp [hv, ht]
    · simp [hv]

/-- C3, witness: a valid FPM header (version 1, type 1, length 20) followed
by two payload bytes. -/
theorem c3_fpm_gate_witness :
    FpmHeader.parser [0, 1, 0, 1, 0, 0, 0, 20, 7, 7] =
      .ok (some ⟨1, 1, 20⟩, some .netlink, [7, 7]) :=
  (c3_fpm_gate [0, 1, 0, 1, 0, 0, 0, 20, 7, 7] (by decide)).1 ⟨by decide, by decide⟩

/-- C4, counterexample: the claim states that when an attribute declares
more payload than remains, the loop stops cleanly and no fatal failure is
raised for the enclosing message.  On a message whose attribute region is
an OIF attribute declaring 4 payload bytes with only 2 remaining, the code
slices a truncated 2-byte payload (Python slicing clamps silently) and
`struct.unpack_from('!I', ...)` inside `RtAttrOif.__init__` raises a
`struct.error` that aborts the whole RTNETLINK message. -/
theorem c4_counterexample_truncated_attr_raises :
    RtNetlink.parser [2, 24, 0, 0, 254, 3, 0, 1, 0, 0, 0, 0, 0, 4, 0, 4, 9, 9] =
      .error .structError := rfl

set_option maxRecDepth 8192 in
/-- C4, amended: when fewer than 4 bytes remain for a TLV header the
attribute loop does stop cleanly, keeping the attributes decoded so far and
raising nothing; but an attribute declaring more payload than remains is
not detected: its payload is silently truncated and, for a recognized
fixed-size attribute type such as OIF, the variant constructor raises a
fatal `struct.error` that fails the enclosing message (shown here for any
12-byte RTNETLINK header and any two leftover payload bytes). -/
theorem c4_short_tlv_header_stops_cleanly :
    (∀ buf : List Nat, buf.length < 4 → rtAttrLoop buf = .ok ([], buf)) ∧
    (∀ (b5 b6 : Nat) (hdr : List Nat), hdr.length = 12 →
      RtNetlink.parser (hdr ++ [0, 4, 0, 4, b5, b6]) = .error .structError) := by
  constructor
  · exact fun buf h => rtAttrLoop_short buf h
  · intro b5 b6 hdr h12
    unfold RtNetlink.parser
    rw [if_neg (by simp [List.length_append, h12])]
    have hdrop : (hdr ++ [0, 4, 0, 4, b5, b6]).drop 12 = [0, 4, 0, 4, b5, b6] := by
      rw [← h12, List.drop_left]
    rw [hdrop]
    have hloop : rtAttrLoop [0, 4, 0, 4, b5, b6] = .error .structError := rfl
    rw [hloop]

/-- C4, witness: the amended behaviour at a 2-byte attribute region and at
a concrete truncated OIF attribute. -/
theorem c4_short_tlv_header_stops_cleanly_witness :
    rtAttrLoop [9, 9] = .ok ([], [9, 9]) ∧
    RtNetlink.parser ([2, 24, 0, 0, 254, 3, 0, 1, 0, 0, 0, 0] ++ [0, 4, 0, 4, 7, 8]) =
      .error .structError :=
  ⟨c4_short_tlv_header_stops_cleanly.1 [9, 9] (by decide),
   c4_short_tlv_header_stops_cleanly.2 7 8 [2, 24, 0, 0, 254, 3, 0, 1, 0, 0, 0, 0] (by decide)⟩

/-- C5: a Destination or Gateway attribute with declared payload length 4
whose 4 payload bytes are present decodes to the dotted-decimal text of
those bytes; with declared length 16 and 16 payload bytes to the textual
form of the 16-byte IPv6 address; any other declared length leaves the
address absent (`None`), never fabricated. -/
theorem c5_address_length_gating :
    (∀ t a b c d : Nat,
      RtAttrDst 4 t [a, b, c, d] =
        .ok ⟨4, t, .dst (some (dottedQuad (a % 256) (b % 256) (c % 256) (d % 256)))⟩ ∧
      RtAttrGateway 4 t [a, b, c, d] =
        .ok ⟨4, t, .gateway (some (dottedQuad (a % 256) (b % 256) (c % 256) (d % 256)))⟩) ∧
    (∀ (t : Nat) (data : List Nat), data.length = 16 →
      ∃ s, ipv6_bin_to_text data = .ok s ∧
        RtAttrDst 16 t data = .ok ⟨16, t, .dst (some s)⟩ ∧
        RtAttrGateway 16 t data = .ok ⟨16, t, .gateway (some s)⟩) ∧
    (∀ (len t : Nat) (data : List Nat), len ≠ 4 → len ≠ 16 →
      RtAttrDst len t data = .ok ⟨len, t, .dst none⟩ ∧
      RtAttrGateway len t data = .ok ⟨len, t, .gateway none⟩) := by
  refine ⟨fun t a b c d => ⟨rfl, rfl⟩, ?_, ?_⟩
  · intro t data h16
    have hip : ipv6_bin_to_text data =
        .ok (String.intercalate ":" ((hextets data).map hexWord)) := by
      unfold ipv6_bin_to_text
      rw [if_pos h16]
    refine ⟨_, hip, ?_, ?_⟩
    · unfold RtAttrDst
      rw [if_neg (by omega), if_pos rfl, hip]
    · unfold RtAttrGateway
      rw [if_neg (by omega), if_pos rfl, hip]
  · intro len t data h4 h16
    constructor
    · unfold RtAttrDst
      rw [if_neg h4, if_neg h16]
    · unfold RtAttrGateway
      rw [if_neg h4, if_neg h16]

/-- C5, witness: an IPv4 destination `10.0.0.1` and a gateway attribute of
invalid declared length 8, whose address is absent. -/
theorem c5_address_length_gating_witness :
    RtAttrDst 4 1 [10, 0, 0, 1] = .ok ⟨4, 1, .dst (some "10.0.0.1")⟩ ∧
    RtAttrGateway 8 5 [1, 2, 3, 4, 5, 6, 7, 8] = .ok ⟨8, 5, .gateway none⟩ :=
  ⟨(c5_address_length_gating.1 1 10 0 0 1).1,
   (c5_address_length_gating.2.2 8 5 [1, 2, 3, 4, 5, 6, 7, 8] (by decide) (by decide)).2⟩

/-- C6, counterexample: the claim states that every layer reports a buffer
shorter than its fixed header as an explicit result value and that no
decoder ever throws.  On a 3-byte buffer the FPM layer instead lets
`struct.unpack_from` raise a `struct.error` (modelled as the error result),
not the explicit no-record return the attribute layer uses. -/
theorem c6_counterexample_short_fpm_raises :
    FpmHeader.parser [1, 2, 3] = .error .structError := rfl

/-- C6, amended: only the route-attribute layer reports insufficient data
as an explicit soft result (`(None, None, buf)` for fewer than 4 bytes);
the FPM, Netlink and RTNETLINK layers raise an uncaught `struct.error` for
buffers shorter than their fixed header sizes of 8, 16 and 12 bytes
respectively. -/
theorem c6_insufficient_data_behaviour :
    (∀ buf : List Nat, buf.length < 4 → RtAttribute.parser buf = .ok (none, none, buf)) ∧
    (∀ buf : List Nat, buf.length < 8 → FpmHeader.parser buf = .error .structError) ∧
    (∀ buf : List Nat, buf.length < 16 → Netlink.parser buf = .error .structError) ∧
    (∀ buf : List Nat, buf.length < 12 → RtNetlink.parser buf = .error .structError) := by
  refine ⟨fun buf h => parser_short buf h, fun buf h => ?_, fun buf h => ?_, fun buf h => ?_⟩
  · unfold FpmHeader.parser
    rw [if_pos h]
  · unfold Netlink.parser
    rw [if_pos h]
  · unfold RtNetlink.parser
    rw [if_pos h]

/-- C6, witness: the amended behaviour at concrete short buffers for all
four layers. -/
theorem c6_insufficient_data_behaviour_witness :
    RtAttribute.parser [1] = .ok (none, none, [1]) ∧
    FpmHeader.parser [2] = .error .structError ∧
    Netlink.parser [3] = .error .structError ∧
    RtNetlink.parser [4] = .error .structError :=
  ⟨c6_insufficient_data_behaviour.1 [1] (by decide),
   c6_insufficient_data_behaviour.2.1 [2] (by decide),
   c6_insufficient_data_behaviour.2.2.1 [3] (by decide),
   c6_insufficient_data_behaviour.2.2.2 [4] (by decide)⟩

/-- C7, counterexample: the claim states that every buffer of at least 12
bytes is decoded by the Netlink layer, the buffer advancing by exactly 12
bytes.  The pack format `!IHHII` is 16 bytes, so on a 12-byte buffer the
code raises a `struct.error` instead of decoding. -/
theorem c7_counterexample_twelve_byte_buffer :
    Netlink.parser [0, 0, 0, 40, 0, 24, 0, 1, 0, 0, 0, 1] = .error .structError := rfl

/-- C7, amended: for every buffer of at least 16 bytes (the actual size of
the `!IHHII` Netlink header: length u32, msg_type u16, flags u16, sequence
u32, process_port_id u32, all network byte order), `Netlink.parser`
performs no validation on `msg_type` and returns the header record, the
directive to invoke the RTNETLINK decoder next, and the buffer sliced past
exactly 16 bytes; shorter buffers raise. -/
theorem c7_netlink_sixteen_byte_contract (buf : List Nat) (h : 16 ≤ buf.length) :
    Netlink.parser buf =
      .ok (some ⟨be32 (byteAt buf 0) (byteAt buf 1) (byteAt buf 2) (byteAt buf 3),
                 be16 (byteAt buf 4) (byteAt buf 5),
                 be16 (byteAt buf 6) (byteAt buf 7),
                 be32 (byteAt buf 8) (byteAt buf 9) (byteAt buf 10) (byteAt buf 11),
                 be32 (byteAt buf 12) (byteAt buf 13) (byteAt buf 14) (byteAt buf 15)⟩,
            some .rtnetlink, buf.drop 16) := by
  unfold Netlink.parser
  rw [if_neg (by omega)]

/-- C7, witness: a concrete 17-byte buffer decoding to a header with
length 40, msg_type 24 (`RTM_NEWROUTE`), flags 1, sequence 1, pid 5 and one
leftover byte. -/
theorem c7_netlink_sixteen_byte_contract_witness :
    Netlink.parser [0, 0, 0, 40, 0, 24, 0, 1, 0, 0, 0, 1, 0, 0, 0, 5, 9] =
      .ok (some ⟨40, 24, 1, 1, 5⟩, some .rtnetlink, [9]) :=
  c7_netlink_sixteen_byte_contract [0, 0, 0, 40, 0, 24, 0, 1, 0, 0, 0, 1, 0, 0, 0, 5, 9]
    (by decide)

/-- C8: every decoder of the chain is deterministic — decoding the exact
same buffer twice yields the same record, next-stage directive and
remaining buffer.  The only cross-call state in the source is the static
dispatch table `attr_cls_map`, which is never mutated, so the decoders are
pure functions of the buffer and the equality holds by construction. -/
theorem c8_decoders_deterministic (buf : List Nat) :
    FpmHeader.parser buf = FpmHeader.parser buf ∧
    Netlink.parser buf = Netlink.parser buf ∧
    RtNetlink.parser buf = RtNetlink.parser buf ∧
    RtAttribute.parser buf = RtAttribute.parser buf :=
  ⟨rfl, rfl, rfl, rfl⟩

/-- C9: the attribute loop of `RtNetlink.parser` terminates on every finite
buffer — it is a total function here, and each iteration that collects an
attribute consumes at least the 4-byte TLV header, so the number of
collected attributes (= continuing iterations) is bounded by a quarter of
the buffer length. -/
theorem c9_loop_iteration_bound (buf : List Nat) (attrs : List RtAttribute)
    (rest : List Nat) (h : rtAttrLoop buf = .ok (attrs, rest)) :
    4 * attrs.length ≤ buf.length :=
  rtAttrLoopF_bound (buf.length + 1) buf attrs rest h

/-- C9, witness: the bound at a concrete single-attribute buffer. -/
theorem c9_loop_iteration_bound_witness :
    4 * ([⟨4, 4, .oif (some 3)⟩] : List RtAttribute).length ≤
      ([0, 4, 0, 4, 0, 0, 0, 3] : List Nat).length :=
  c9_loop_iteration_bound [0, 4, 0, 4, 0, 0, 0, 3] [⟨4, 4, .oif (some 3)⟩] [] rfl

/-- C10: whenever `RtAttribute.parser` is given at least the 4-byte TLV
header and returns, the remaining buffer it returns is the input sliced
past exactly 4 plus the declared payload length — independent of whether
the attribute type is in the dispatch table and of whether a record is
produced. -/
theorem c10_remaining_buffer_exact (buf : List Nat) (r : Option RtAttribute)
    (n : Option NextProto) (b2 : List Nat) (h4 : 4 ≤ buf.length)
    (hp : RtAttribute.parser buf = .ok (r, n, b2)) :
    b2 = buf.drop (4 + be16 (byteAt buf 0) (byteAt buf 1)) :=
  parser_ok_slice buf r n b2 h4 hp

/-- C10, witness: an unrecognized attribute of declared length 2 leaves
exactly the bytes past `4 + 2` — no record is produced, yet the slice is
the declared one. -/
theorem c10_remaining_buffer_exact_witness :
    ([1, 1] : List Nat) =
      ([0, 2, 0, 99, 5, 5, 1, 1] : List Nat).drop
        (4 + be16 (byteAt [0, 2, 0, 99, 5, 5, 1, 1] 0) (byteAt [0, 2, 0, 99, 5, 5, 1, 1] 1)) :=
  c10_remaining_buffer_exact [0, 2, 0, 99, 5, 5, 1, 1] none none [1, 1] (by decide) rfl

end RyuVRouter
